import Mathlib

/-!
Verification of the star-wars data-modeling schema (`src/models.py`).

The file shallow-embeds, in Lean 4:

* the static schema declaration: seven entity tables and six many-to-many
  association tables, transcribed column by column from the `Column(...)`
  and `Table(...)` declarations of `models.py`;
* a database-state model (`DB`) holding one list of rows per table, with
  the relationship accessors declared via `relationship(...)` in the
  source (`home_planet` / `residents`, the three `Film` association pairs,
  the `comments` list of a post) expressed over foreign-key values, exactly as the
  secondary-join semantics of the declarations prescribe;
* an operational model of the persistence layer executing inserts and
  updates against the declared constraints (primary keys, `unique=True`,
  `nullable=False`, `ForeignKey(...)`) — the model layer itself declares
  no operations, so these give the declared constraints their standard
  operational meaning;
* the observable behaviour of the `__main__` diagram script: it removes
  any file at the fixed output path (swallowing `FileNotFoundError`), and
  then either renders the diagram and exits 0 or, when
  `sqlalchemy_schemadisplay` cannot be imported, prints an actionable
  message and exits 1.
-/

namespace StarwarsModels

/-! ## Static schema declaration -/

/-- SQL column types used in `models.py` (`Integer`, `String(n)`, `Text`,
`Float`, `DateTime`). -/
inductive ColType where
  | int : ColType
  | string : Nat → ColType
  | text : ColType
  | float : ColType
  | datetime : ColType
deriving DecidableEq, Repr

/-- One `Column(...)` declaration: its name, SQL type, and the constraint
flags `primary_key`, `unique`, `nullable`, and an optional
`ForeignKey` target (given as the `table.column` string of the source). -/
structure ColumnDef where
  name : String
  type : ColType
  primaryKey : Bool := false
  unique : Bool := false
  nullable : Bool := true
  foreignKey : Option String := none
deriving DecidableEq, Repr

/-- A table declaration: its SQL name and its columns. -/
structure TableDef where
  name : String
  columns : List ColumnDef
deriving DecidableEq, Repr

/-- The `users` table of class `User`. -/
def usersTable : TableDef :=
  { name := "users"
    columns :=
      [ { name := "id", type := .int, primaryKey := true, nullable := false }
      , { name := "username", type := .string 80, unique := true, nullable := false }
      , { name := "email", type := .string 120, unique := true, nullable := false }
      , { name := "password", type := .string 255, nullable := false }
      , { name := "created_at", type := .datetime }
      , { name := "updated_at", type := .datetime } ] }

/-- The `characters` table of class `Character`. -/
def charactersTable : TableDef :=
  { name := "characters"
    columns :=
      [ { name := "id", type := .int, primaryKey := true, nullable := false }
      , { name := "name", type := .string 100, nullable := false }
      , { name := "species", type := .string 50 }
      , { name := "birth_year", type := .string 20 }
      , { name := "gender", type := .string 20 }
      , { name := "height", type := .int }
      , { name := "mass", type := .int }
      , { name := "home_planet_id", type := .int, foreignKey := some "planets.id" } ] }

/-- The `planets` table of class `Planet`. -/
def planetsTable : TableDef :=
  { name := "planets"
    columns :=
      [ { name := "id", type := .int, primaryKey := true, nullable := false }
      , { name := "name", type := .string 100, nullable := false }
      , { name := "climate", type := .string 50 }
      , { name := "terrain", type := .string 50 }
      , { name := "population", type := .int }
      , { name := "diameter", type := .int } ] }

/-- The `vehicles` table of class `Vehicle`. -/
def vehiclesTable : TableDef :=
  { name := "vehicles"
    columns :=
      [ { name := "id", type := .int, primaryKey := true, nullable := false }
      , { name := "name", type := .string 100, nullable := false }
      , { name := "model", type := .string 100 }
      , { name := "manufacturer", type := .string 100 }
      , { name := "cost_in_credits", type := .int }
      , { name := "length", type := .float }
      , { name := "max_atmosphering_speed", type := .int }
      , { name := "crew", type := .int }
      , { name := "passengers", type := .int }
      , { name := "vehicle_class", type := .string 50 } ] }

/-- The `films` table of class `Film`. -/
def filmsTable : TableDef :=
  { name := "films"
    columns :=
      [ { name := "id", type := .int, primaryKey := true, nullable := false }
      , { name := "title", type := .string 100, nullable := false }
      , { name := "episode_id", type := .int }
      , { name := "opening_crawl", type := .text }
      , { name := "director", type := .string 100 }
      , { name := "producer", type := .string 100 }
      , { name := "release_date", type := .datetime } ] }

/-- The `blog_posts` table of class `BlogPost`. -/
def blogPostsTable : TableDef :=
  { name := "blog_posts"
    columns :=
      [ { name := "id", type := .int, primaryKey := true, nullable := false }
      , { name := "title", type := .string 200, nullable := false }
      , { name := "content", type := .text, nullable := false }
      , { name := "created_at", type := .datetime }
      , { name := "updated_at", type := .datetime }
      , { name := "author_id", type := .int, foreignKey := some "users.id" }
      , { name := "category", type := .string 50 }
      , { name := "tags", type := .string 200 } ] }

/-- The `comments` table of class `Comment`. -/
def commentsTable : TableDef :=
  { name := "comments"
    columns :=
      [ { name := "id", type := .int, primaryKey := true, nullable := false }
      , { name := "content", type := .text, nullable := false }
      , { name := "created_at", type := .datetime }
      , { name := "updated_at", type := .datetime }
      , { name := "author_id", type := .int, foreignKey := some "users.id" }
      , { name := "post_id", type := .int, foreignKey := some "blog_posts.id" } ] }

/-- The association table `user_favorite_characters` of the source. -/
def userFavoriteCharactersTable : TableDef :=
  { name := "user_favorite_characters"
    columns :=
      [ { name := "user_id", type := .int, foreignKey := some "users.id" }
      , { name := "character_id", type := .int, foreignKey := some "characters.id" } ] }

/-- The association table `user_favorite_planets` of the source. -/
def userFavoritePlanetsTable : TableDef :=
  { name := "user_favorite_planets"
    columns :=
      [ { name := "user_id", type := .int, foreignKey := some "users.id" }
      , { name := "planet_id", type := .int, foreignKey := some "planets.id" } ] }

/-- The association table `user_favorite_vehicles` of the source. -/
def userFavoriteVehiclesTable : TableDef :=
  { name := "user_favorite_vehicles"
    columns :=
      [ { name := "user_id", type := .int, foreignKey := some "users.id" }
      , { name := "vehicle_id", type := .int, foreignKey := some "vehicles.id" } ] }

/-- The association table `character_films` of the source. -/
def characterFilmsTable : TableDef :=
  { name := "character_films"
    columns :=
      [ { name := "character_id", type := .int, foreignKey := some "characters.id" }
      , { name := "film_id", type := .int, foreignKey := some "films.id" } ] }

/-- The association table `planet_films` of the source. -/
def planetFilmsTable : TableDef :=
  { name := "planet_films"
    columns :=
      [ { name := "planet_id", type := .int, foreignKey := some "planets.id" }
      , { name := "film_id", type := .int, foreignKey := some "films.id" } ] }

/-- The association table `vehicle_films` of the source. -/
def vehicleFilmsTable : TableDef :=
  { name := "vehicle_films"
    columns :=
      [ { name := "vehicle_id", type := .int, foreignKey := some "vehicles.id" }
      , { name := "film_id", type := .int, foreignKey := some "films.id" } ] }

/-- The seven entity definitions of the schema, in source order:
`User`, `Character`, `Planet`, `Vehicle`, `Film`, `BlogPost`, `Comment`. -/
def entityTables : List TableDef :=
  [ usersTable, charactersTable, planetsTable, vehiclesTable, filmsTable
  , blogPostsTable, commentsTable ]

/-- The six many-to-many association definitions of the schema, in source
order. -/
def associationTables : List TableDef :=
  [ userFavoriteCharactersTable, userFavoritePlanetsTable
  , userFavoriteVehiclesTable, characterFilmsTable, planetFilmsTable
  , vehicleFilmsTable ]

/-! ## Rows and database state

One Lean structure per mapped class, one field per `Column(...)`.
Columns without `nullable=False` are `Option`-valued (SQL `NULL` is
`none`); `DateTime` values are carried as abstract timestamps (`Int`) and
the single `Float` column as `Rat`, since no claim depends on their
internal representation. -/

/-- A row of `users` (class `User`). -/
structure UserRow where
  id : Int
  username : String
  email : String
  password : String
  created_at : Option Int := none
  updated_at : Option Int := none
deriving DecidableEq, Repr

/-- A row of `characters` (class `Character`). -/
structure CharacterRow where
  id : Int
  name : String
  species : Option String := none
  birth_year : Option String := none
  gender : Option String := none
  height : Option Int := none
  mass : Option Int := none
  home_planet_id : Option Int := none
deriving DecidableEq, Repr

/-- A row of `planets` (class `Planet`). -/
structure PlanetRow where
  id : Int
  name : String
  climate : Option String := none
  terrain : Option String := none
  population : Option Int := none
  diameter : Option Int := none
deriving DecidableEq, Repr

/-- A row of `vehicles` (class `Vehicle`). -/
structure VehicleRow where
  id : Int
  name : String
  model : Option String := none
  manufacturer : Option String := none
  cost_in_credits : Option Int := none
  length : Option Rat := none
  max_atmosphering_speed : Option Int := none
  crew : Option Int := none
  passengers : Option Int := none
  vehicle_class : Option String := none
deriving DecidableEq, Repr

/-- A row of `films` (class `Film`). -/
structure FilmRow where
  id : Int
  title : String
  episode_id : Option Int := none
  opening_crawl : Option String := none
  director : Option String := none
  producer : Option String := none
  release_date : Option Int := none
deriving DecidableEq, Repr

/-- A row of `blog_posts` (class `BlogPost`). -/
structure BlogPostRow where
  id : Int
  title : String
  content : String
  created_at : Option Int := none
  updated_at : Option Int := none
  author_id : Option Int := none
  category : Option String := none
  tags : Option String := none
deriving DecidableEq, Repr

/-- A row of `comments` (class `Comment`). -/
structure CommentRow where
  id : Int
  content : String
  created_at : Option Int := none
  updated_at : Option Int := none
  author_id : Option Int := none
  post_id : Option Int := none
deriving DecidableEq, Repr

/-- A database state over the declared schema: one list of rows per entity
table and one list of `(fk, fk)` pairs per association table, in the
column order of the association declaration. -/
structure DB where
  users : List UserRow := []
  characters : List CharacterRow := []
  planets : List PlanetRow := []
  vehicles : List VehicleRow := []
  films : List FilmRow := []
  blog_posts : List BlogPostRow := []
  comments : List CommentRow := []
  user_favorite_characters : List (Int × Int) := []
  user_favorite_planets : List (Int × Int) := []
  user_favorite_vehicles : List (Int × Int) := []
  character_films : List (Int × Int) := []
  planet_films : List (Int × Int) := []
  vehicle_films : List (Int × Int) := []
deriving DecidableEq, Repr

/-- The empty database: the state right after `Base.metadata.create_all`. -/
def emptyDB : DB := {}

/-! ## Relationship accessors

Each `relationship(...)` of the source becomes a navigation function on a
`DB`.  A many-to-one accessor resolves the foreign-key column; a
one-to-many accessor collects the rows whose foreign key points back; a
many-to-many accessor joins through the `secondary` association table. -/

/-- Accessor `Character.home_planet`: the `Planet` row referenced by
`home_planet_id`, if any. -/
def CharacterRow.home_planet (c : CharacterRow) (db : DB) : Option PlanetRow :=
  match c.home_planet_id with
  | none => none
  | some pid => db.planets.find? (fun p => p.id == pid)

/-- Accessor `Planet.residents`: the `Character` rows whose `home_planet_id` is the
id of this planet (the `back_populates` pair of `home_planet`). -/
def PlanetRow.residents (p : PlanetRow) (db : DB) : List CharacterRow :=
  db.characters.filter (fun c => c.home_planet_id == some p.id)

/-- Accessor `Film.characters`: characters joined through the `character_films`
association table. -/
def FilmRow.characters (f : FilmRow) (db : DB) : List CharacterRow :=
  db.characters.filter (fun c =>
    db.character_films.any (fun link => link.1 == c.id && link.2 == f.id))

/-- Accessor `Character.films`: films joined through the `character_films`
association table (`back_populates` pair of `Film.characters`). -/
def CharacterRow.films (c : CharacterRow) (db : DB) : List FilmRow :=
  db.films.filter (fun f =>
    db.character_films.any (fun link => link.1 == c.id && link.2 == f.id))

/-- Accessor `Film.planets`: planets joined through the `planet_films` association
table. -/
def FilmRow.planets (f : FilmRow) (db : DB) : List PlanetRow :=
  db.planets.filter (fun p =>
    db.planet_films.any (fun link => link.1 == p.id && link.2 == f.id))

/-- Accessor `Planet.films`: films joined through the `planet_films` association
table (`back_populates` pair of `Film.planets`). -/
def PlanetRow.films (p : PlanetRow) (db : DB) : List FilmRow :=
  db.films.filter (fun f =>
    db.planet_films.any (fun link => link.1 == p.id && link.2 == f.id))

/-- Accessor `Film.vehicles`: vehicles joined through the `vehicle_films`
association table. -/
def FilmRow.vehicles (f : FilmRow) (db : DB) : List VehicleRow :=
  db.vehicles.filter (fun v =>
    db.vehicle_films.any (fun link => link.1 == v.id && link.2 == f.id))

/-- Accessor `Vehicle.films`: films joined through the `vehicle_films` association
table (`back_populates` pair of `Film.vehicles`). -/
def VehicleRow.films (v : VehicleRow) (db : DB) : List FilmRow :=
  db.films.filter (fun f =>
    db.vehicle_films.any (fun link => link.1 == v.id && link.2 == f.id))

/-- Accessor `BlogPost.comments`: the `Comment` rows whose `post_id` is the
id of this post (the `back_populates` pair of `Comment.post`). -/
def BlogPostRow.comments (b : BlogPostRow) (db : DB) : List CommentRow :=
  db.comments.filter (fun cm => cm.post_id == some b.id)

/-! ## Operational model of the persistence layer

The model layer declares no operations of its own (the spec: mutations
occur through whatever persistence layer the host application uses), so
the declared constraints of the schema are given their standard operational
meaning: an insert is rejected with a constraint-violation error when a
primary-key or `unique=True` column would collide or a `ForeignKey`
column would reference a missing row, and is appended to the table
otherwise.  `nullable=False` columns are non-`Option` fields, so they are
present by construction. -/

/-- Insert into `users`, enforcing the primary key and the `unique=True`
constraints on `username` and `email`. -/
def createUser (db : DB) (u : UserRow) : Except String DB :=
  if db.users.any (fun v => v.id == u.id) then
    .error "UNIQUE constraint failed: users.id"
  else if db.users.any (fun v => v.username == u.username) then
    .error "UNIQUE constraint failed: users.username"
  else if db.users.any (fun v => v.email == u.email) then
    .error "UNIQUE constraint failed: users.email"
  else
    .ok { db with users := db.users ++ [u] }

/-- Insert into `planets`, enforcing the primary key. -/
def createPlanet (db : DB) (p : PlanetRow) : Except String DB :=
  if db.planets.any (fun q => q.id == p.id) then
    .error "UNIQUE constraint failed: planets.id"
  else
    .ok { db with planets := db.planets ++ [p] }

/-- Insert into `characters`, enforcing the primary key and the
`ForeignKey` constraint (target `planets.id`) on `home_planet_id`. -/
def createCharacter (db : DB) (c : CharacterRow) : Except String DB :=
  if db.characters.any (fun d => d.id == c.id) then
    .error "UNIQUE constraint failed: characters.id"
  else if ¬ (c.home_planet_id.all (fun pid => db.planets.any (fun p => p.id == pid))) then
    .error "FOREIGN KEY constraint failed: characters.home_planet_id"
  else
    .ok { db with characters := db.characters ++ [c] }

/-- Insert into `vehicles`, enforcing the primary key. -/
def createVehicle (db : DB) (v : VehicleRow) : Except String DB :=
  if db.vehicles.any (fun w => w.id == v.id) then
    .error "UNIQUE constraint failed: vehicles.id"
  else
    .ok { db with vehicles := db.vehicles ++ [v] }

/-- Insert into `films`, enforcing the primary key. -/
def createFilm (db : DB) (f : FilmRow) : Except String DB :=
  if db.films.any (fun g => g.id == f.id) then
    .error "UNIQUE constraint failed: films.id"
  else
    .ok { db with films := db.films ++ [f] }

/-- Insert into `blog_posts`, enforcing the primary key and the
`ForeignKey` constraint (target `users.id`) on `author_id`. -/
def createBlogPost (db : DB) (b : BlogPostRow) : Except String DB :=
  if db.blog_posts.any (fun c => c.id == b.id) then
    .error "UNIQUE constraint failed: blog_posts.id"
  else if ¬ (b.author_id.all (fun uid => db.users.any (fun u => u.id == uid))) then
    .error "FOREIGN KEY constraint failed: blog_posts.author_id"
  else
    .ok { db with blog_posts := db.blog_posts ++ [b] }

/-- Insert into `comments`, enforcing the primary key and the
`ForeignKey` constraints on `author_id` and `post_id`. -/
def createComment (db : DB) (cm : CommentRow) : Except String DB :=
  if db.comments.any (fun d => d.id == cm.id) then
    .error "UNIQUE constraint failed: comments.id"
  else if ¬ (cm.author_id.all (fun uid => db.users.any (fun u => u.id == uid))) then
    .error "FOREIGN KEY constraint failed: comments.author_id"
  else if ¬ (cm.post_id.all (fun pid => db.blog_posts.any (fun b => b.id == pid))) then
    .error "FOREIGN KEY constraint failed: comments.post_id"
  else
    .ok { db with comments := db.comments ++ [cm] }

/-- Insert a pair into `user_favorite_characters`, enforcing its two
`ForeignKey` constraints.  The association table declares no primary key
and no uniqueness, so no duplicate check is made. -/
def addUserFavoriteCharacter (db : DB) (uid cid : Int) : Except String DB :=
  if ¬ (db.users.any (fun u => u.id == uid)) then
    .error "FOREIGN KEY constraint failed: user_favorite_characters.user_id"
  else if ¬ (db.characters.any (fun c => c.id == cid)) then
    .error "FOREIGN KEY constraint failed: user_favorite_characters.character_id"
  else
    .ok { db with user_favorite_characters := db.user_favorite_characters ++ [(uid, cid)] }

/-- Insert a pair into `user_favorite_planets` (no primary key, no
uniqueness: no duplicate check). -/
def addUserFavoritePlanet (db : DB) (uid pid : Int) : Except String DB :=
  if ¬ (db.users.any (fun u => u.id == uid)) then
    .error "FOREIGN KEY constraint failed: user_favorite_planets.user_id"
  else if ¬ (db.planets.any (fun p => p.id == pid)) then
    .error "FOREIGN KEY constraint failed: user_favorite_planets.planet_id"
  else
    .ok { db with user_favorite_planets := db.user_favorite_planets ++ [(uid, pid)] }

/-- Insert a pair into `user_favorite_vehicles` (no primary key, no
uniqueness: no duplicate check). -/
def addUserFavoriteVehicle (db : DB) (uid vid : Int) : Except String DB :=
  if ¬ (db.users.any (fun u => u.id == uid)) then
    .error "FOREIGN KEY constraint failed: user_favorite_vehicles.user_id"
  else if ¬ (db.vehicles.any (fun v => v.id == vid)) then
    .error "FOREIGN KEY constraint failed: user_favorite_vehicles.vehicle_id"
  else
    .ok { db with user_favorite_vehicles := db.user_favorite_vehicles ++ [(uid, vid)] }

/-- Insert a pair into `character_films` (no primary key, no uniqueness:
no duplicate check). -/
def addCharacterFilm (db : DB) (cid fid : Int) : Except String DB :=
  if ¬ (db.characters.any (fun c => c.id == cid)) then
    .error "FOREIGN KEY constraint failed: character_films.character_id"
  else if ¬ (db.films.any (fun f => f.id == fid)) then
    .error "FOREIGN KEY constraint failed: character_films.film_id"
  else
    .ok { db with character_films := db.character_films ++ [(cid, fid)] }

/-- Insert a pair into `planet_films` (no primary key, no uniqueness: no
duplicate check). -/
def addPlanetFilm (db : DB) (pid fid : Int) : Except String DB :=
  if ¬ (db.planets.any (fun p => p.id == pid)) then
    .error "FOREIGN KEY constraint failed: planet_films.planet_id"
  else if ¬ (db.films.any (fun f => f.id == fid)) then
    .error "FOREIGN KEY constraint failed: planet_films.film_id"
  else
    .ok { db with planet_films := db.planet_films ++ [(pid, fid)] }

/-- Insert a pair into `vehicle_films` (no primary key, no uniqueness: no
duplicate check). -/
def addVehicleFilm (db : DB) (vid fid : Int) : Except String DB :=
  if ¬ (db.vehicles.any (fun v => v.id == vid)) then
    .error "FOREIGN KEY constraint failed: vehicle_films.vehicle_id"
  else if ¬ (db.films.any (fun f => f.id == fid)) then
    .error "FOREIGN KEY constraint failed: vehicle_films.film_id"
  else
    .ok { db with vehicle_films := db.vehicle_films ++ [(vid, fid)] }

/-- Clear the `author_id` of the blog post with the given id: `author_id`
is a plain nullable foreign key, so setting it to `NULL` violates no
declared constraint and touches no other table. -/
def clearBlogPostAuthor (db : DB) (bid : Int) : DB :=
  { db with blog_posts :=
      db.blog_posts.map (fun b => if b.id == bid then { b with author_id := none } else b) }

/-- The operations of the model: one per schema-constrained mutation the
claims speak about. -/
inductive Op where
  | createUser : UserRow → Op
  | createPlanet : PlanetRow → Op
  | createCharacter : CharacterRow → Op
  | createVehicle : VehicleRow → Op
  | createFilm : FilmRow → Op
  | createBlogPost : BlogPostRow → Op
  | createComment : CommentRow → Op
  | addUserFavoriteCharacter : Int → Int → Op
  | addUserFavoritePlanet : Int → Int → Op
  | addUserFavoriteVehicle : Int → Int → Op
  | addCharacterFilm : Int → Int → Op
  | addPlanetFilm : Int → Int → Op
  | addVehicleFilm : Int → Int → Op
  | clearBlogPostAuthor : Int → Op
deriving Repr

/-- One step of the persistence layer: execute an operation against the
declared constraints. -/
def step (db : DB) : Op → Except String DB
  | .createUser u => createUser db u
  | .createPlanet p => createPlanet db p
  | .createCharacter c => createCharacter db c
  | .createVehicle v => createVehicle db v
  | .createFilm f => createFilm db f
  | .createBlogPost b => createBlogPost db b
  | .createComment cm => createComment db cm
  | .addUserFavoriteCharacter uid cid => addUserFavoriteCharacter db uid cid
  | .addUserFavoritePlanet uid pid => addUserFavoritePlanet db uid pid
  | .addUserFavoriteVehicle uid vid => addUserFavoriteVehicle db uid vid
  | .addCharacterFilm cid fid => addCharacterFilm db cid fid
  | .addPlanetFilm pid fid => addPlanetFilm db pid fid
  | .addVehicleFilm vid fid => addVehicleFilm db vid fid
  | .clearBlogPostAuthor bid => .ok (clearBlogPostAuthor db bid)

/-- The database states reachable from the freshly created schema by
successful operations. -/
inductive Reachable : DB → Prop where
  | empty : Reachable emptyDB
  | step {db db' : DB} {op : Op} : Reachable db → step db op = .ok db' → Reachable db'

/-! ## The diagram script

`models.py` run as `__main__`: it computes the fixed output path
`<repository root>/diagram.png`, unconditionally removes any file at that
path (swallowing `FileNotFoundError`), and only then tries to import
`sqlalchemy_schemadisplay`.  On success it renders the schema graph,
writes it to the output path and prints a success line; on `ImportError`
it prints four explanatory lines and calls `sys.exit(1)`.  The model
records the observable pieces of that behaviour: whether a file exists at
the output path, the exit code, and the lines printed. -/

/-- The fixed output path of the diagram script, relative to the
repository root (`os.path.dirname(os.path.dirname(os.path.abspath(__file__)))`). -/
def output_path : String := "diagram.png"

/-- Environment of one script invocation: whether the drawing dependency
`sqlalchemy_schemadisplay` is importable, and whether a file already
exists at the output path. -/
structure ScriptEnv where
  schemadisplayAvailable : Bool
  diagramExists : Bool
deriving DecidableEq, Repr

/-- Observable outcome of one script invocation. -/
structure ScriptResult where
  diagramExists : Bool
  exitCode : Nat
  printed : List String
deriving DecidableEq, Repr

/-- The lines printed by the `except ImportError` branch. -/
def importErrorMessage : List String :=
  [ "Error: Could not import sqlalchemy_schemadisplay."
  , "Please install it using: pip install sqlalchemy_schemadisplay"
  , "You may also need to install: pip install pydot"
  , "And on Ubuntu/Debian: sudo apt-get install graphviz" ]

/-- One no-argument invocation of the diagram script.  The
`os.remove(output_path)` guarded by `except FileNotFoundError: pass` runs
before the import is attempted, so the pre-existing file is gone in both
branches. -/
def runDiagramScript (env : ScriptEnv) : ScriptResult :=
  if env.schemadisplayAvailable then
    { diagramExists := true
      exitCode := 0
      printed := [output_path ++ " generated successfully at " ++ output_path ++ "!"] }
  else
    { diagramExists := false
      exitCode := 1
      printed := importErrorMessage }

/-! ## Invariants of reachable database states -/

/-- The three foreign-key reference fields that the integrity invariant
speaks about are null or point at an existing row, and usernames, emails
and primary keys of `users` are pairwise distinct. -/
def Inv (db : DB) : Prop :=
  db.users.Pairwise (fun a b => a.id ≠ b.id ∧ a.username ≠ b.username ∧ a.email ≠ b.email) ∧
  (∀ c ∈ db.characters, ∀ pid, c.home_planet_id = some pid → ∃ p ∈ db.planets, p.id = pid) ∧
  (∀ b ∈ db.blog_posts, ∀ uid, b.author_id = some uid → ∃ u ∈ db.users, u.id = uid) ∧
  (∀ cm ∈ db.comments,
    (∀ uid, cm.author_id = some uid → ∃ u ∈ db.users, u.id = uid) ∧
    (∀ pid, cm.post_id = some pid → ∃ b ∈ db.blog_posts, b.id = pid))

lemma inv_empty : Inv emptyDB := by
  refine ⟨List.Pairwise.nil, ?_, ?_, ?_⟩ <;> intro x hx <;> simp [emptyDB] at hx

lemma inv_step {db db' : DB} {op : Op} (hinv : Inv db) (h : step db op = .ok db') :
    Inv db' := by
  obtain ⟨hu, hc, hb, hcm⟩ := hinv
  cases op with
  | createUser u =>
    simp only [step, createUser] at h
    split at h
    · exact absurd h (by simp)
    split at h
    · exact absurd h (by simp)
    split at h
    · exact absurd h (by simp)
    rename_i hid hname hmail
    simp only [List.any_eq_true, beq_iff_eq, not_exists, not_and] at hid hname hmail
    push_neg at hid hname hmail
    cases h
    refine ⟨?_, ?_, ?_, ?_⟩
    · refine List.pairwise_append.mpr ⟨hu, List.pairwise_singleton _ _, ?_⟩
      intro a ha b hb
      simp only [List.mem_singleton] at hb
      subst hb
      exact ⟨fun e => hid a ha e, fun e => hname a ha e, fun e => hmail a ha e⟩
    · intro c hcmem pid hpid
      exact hc c hcmem pid hpid
    · intro b hbmem uid huid
      obtain ⟨u', hu', he⟩ := hb b hbmem uid huid
      exact ⟨u', List.mem_append_left _ hu', he⟩
    · intro cm hcmmem
      obtain ⟨h1, h2⟩ := hcm cm hcmmem
      refine ⟨fun uid huid => ?_, h2⟩
      obtain ⟨u', hu', he⟩ := h1 uid huid
      exact ⟨u', List.mem_append_left _ hu', he⟩
  | createPlanet p =>
    simp only [step, createPlanet] at h
    split at h
    · exact absurd h (by simp)
    cases h
    refine ⟨hu, ?_, hb, hcm⟩
    intro c hcmem pid hpid
    obtain ⟨p', hp', he⟩ := hc c hcmem pid hpid
    exact ⟨p', List.mem_append_left _ hp', he⟩
  | createCharacter c =>
    simp only [step, createCharacter] at h
    split at h
    · exact absurd h (by simp)
    split at h
    · exact absurd h (by simp)
    rename_i hfk
    rw [not_not] at hfk
    cases h
    refine ⟨hu, ?_, hb, hcm⟩
    intro c' hc' pid hpid
    rcases List.mem_append.mp hc' with hold | hnew
    · exact hc c' hold pid hpid
    · simp only [List.mem_singleton] at hnew
      subst hnew
      rw [hpid] at hfk
      simp only [Option.all_some, List.any_eq_true, beq_iff_eq] at hfk
      obtain ⟨p, hp, he⟩ := hfk
      exact ⟨p, hp, he⟩
  | createVehicle v =>
    simp only [step, createVehicle] at h
    split at h
    · exact absurd h (by simp)
    cases h
    exact ⟨hu, hc, hb, hcm⟩
  | createFilm f =>
    simp only [step, createFilm] at h
    split at h
    · exact absurd h (by simp)
    cases h
    exact ⟨hu, hc, hb, hcm⟩
  | createBlogPost b =>
    simp only [step, createBlogPost] at h
    split at h
    · exact absurd h (by simp)
    split at h
    · exact absurd h (by simp)
    rename_i hfk
    rw [not_not] at hfk
    cases h
    refine ⟨hu, hc, ?_, ?_⟩
    · intro b' hb' uid huid
      rcases List.mem_append.mp hb' with hold | hnew
      · exact hb b' hold uid huid
      · simp only [List.mem_singleton] at hnew
        subst hnew
        rw [huid] at hfk
        simp only [Option.all_some, List.any_eq_true, beq_iff_eq] at hfk
        exact hfk
    · intro cm hcmmem
      obtain ⟨h1, h2⟩ := hcm cm hcmmem
      refine ⟨h1, fun pid hpid => ?_⟩
      obtain ⟨b', hb', he⟩ := h2 pid hpid
      exact ⟨b', List.mem_append_left _ hb', he⟩
  | createComment cm =>
    simp only [step, createComment] at h
    split at h
    · exact absurd h (by simp)
    split at h
    · exact absurd h (by simp)
    split at h
    · exact absurd h (by simp)
    rename_i hfka hfkp
    rw [not_not] at hfka
    rw [not_not] at hfkp
    cases h
    refine ⟨hu, hc, hb, ?_⟩
    intro cm' hcm'
    rcases List.mem_append.mp hcm' with hold | hnew
    · exact hcm cm' hold
    · simp only [List.mem_singleton] at hnew
      subst hnew
      constructor
      · intro uid huid
        rw [huid] at hfka
        simp only [Option.all_some, List.any_eq_true, beq_iff_eq] at hfka
        exact hfka
      · intro pid hpid
        rw [hpid] at hfkp
        simp only [Option.all_some, List.any_eq_true, beq_iff_eq] at hfkp
        exact hfkp
  | addUserFavoriteCharacter uid cid =>
    simp only [step, addUserFavoriteCharacter] at h
    split at h
    · exact absurd h (by simp)
    split at h
    · exact absurd h (by simp)
    cases h
    exact ⟨hu, hc, hb, hcm⟩
  | addUserFavoritePlanet uid pid =>
    simp only [step, addUserFavoritePlanet] at h
    split at h
    · exact absurd h (by simp)
    split at h
    · exact absurd h (by simp)
    cases h
    exact ⟨hu, hc, hb, hcm⟩
  | addUserFavoriteVehicle uid vid =>
    simp only [step, addUserFavoriteVehicle] at h
    split at h
    · exact absurd h (by simp)
    split at h
    · exact absurd h (by simp)
    cases h
    exact ⟨hu, hc, hb, hcm⟩
  | addCharacterFilm cid fid =>
    simp only [step, addCharacterFilm] at h
    split at h
    · exact absurd h (by simp)
    split at h
    · exact absurd h (by simp)
    cases h
    exact ⟨hu, hc, hb, hcm⟩
  | addPlanetFilm pid fid =>
    simp only [step, addPlanetFilm] at h
    split at h
    · exact absurd h (by simp)
    split at h
    · exact absurd h (by simp)
    cases h
    exact ⟨hu, hc, hb, hcm⟩
  | addVehicleFilm vid fid =>
    simp only [step, addVehicleFilm] at h
    split at h
    · exact absurd h (by simp)
    split at h
    · exact absurd h (by simp)
    cases h
    exact ⟨hu, hc, hb, hcm⟩
  | clearBlogPostAuthor bid =>
    simp only [step] at h
    cases h
    refine ⟨hu, hc, ?_, ?_⟩
    · intro b' hb' uid huid
      simp only [clearBlogPostAuthor, List.mem_map] at hb'
      obtain ⟨b0, hb0, hmap⟩ := hb'
      by_cases hcase : (b0.id == bid) = true
      · rw [if_pos hcase] at hmap
        subst hmap
        simp at huid
      · rw [if_neg (by simpa using hcase)] at hmap
        subst hmap
        exact hb b0 hb0 uid huid
    · intro cm hcmmem
      obtain ⟨h1, h2⟩ := hcm cm hcmmem
      refine ⟨h1, fun pid hpid => ?_⟩
      obtain ⟨b', hb', he⟩ := h2 pid hpid
      refine ⟨if b'.id == bid then { b' with author_id := none } else b', ?_, ?_⟩
      · exact List.mem_map.mpr ⟨b', hb', rfl⟩
      · by_cases hcase : (b'.id == bid) = true
        · rw [if_pos hcase]
          exact he
        · rw [if_neg (by simpa using hcase)]
          exact he

/-- Every reachable database state satisfies the integrity invariant. -/
lemma reachable_inv {db : DB} (h : Reachable db) : Inv db := by
  induction h with
  | empty => exact inv_empty
  | step _ hstep ih => exact inv_step ih hstep

/-! ## Concrete scenario states -/

/-- Scenario planet: create Planet "Tatooine". -/
def tatooine : PlanetRow := { id := 1, name := "Tatooine" }

/-- Scenario character: create Character "Luke Skywalker" with
`home_planet` = Tatooine. -/
def luke : CharacterRow := { id := 1, name := "Luke Skywalker", home_planet_id := some 1 }

/-- The state after creating Tatooine and then Luke. -/
def scenarioDB : DB := { emptyDB with characters := [luke], planets := [tatooine] }

/-- A first sample user. -/
def sampleUser1 : UserRow :=
  { id := 1, username := "luke", email := "luke@rebellion.org", password := "pw1" }

/-- A second sample user whose email equals the email of the first. -/
def sampleUser2 : UserRow :=
  { id := 2, username := "leia", email := "luke@rebellion.org", password := "pw2" }

/-- The state holding only the first sample user. -/
def dbOneUser : DB := { emptyDB with users := [sampleUser1] }

/-- A sample film. -/
def anh : FilmRow := { id := 1, title := "A New Hope" }

/-- A state with one character, one planet, one film, and one association
link in `character_films` and in `planet_films`. -/
def filmDB : DB :=
  { emptyDB with
    characters := [luke]
    planets := [tatooine]
    films := [anh]
    character_films := [(1, 1)]
    planet_films := [(1, 1)] }

/-- A sample user for the favorite-link scenario. -/
def favUser : UserRow :=
  { id := 1, username := "han", email := "han@falcon.io", password := "pw" }

/-- A sample character with no home planet for the favorite-link
scenario. -/
def favChar : CharacterRow := { id := 1, name := "Chewbacca" }

/-- The favorite-link scenario before any link. -/
def favDB0 : DB := { emptyDB with users := [favUser], characters := [favChar] }

/-- The favorite-link scenario after one `(1, 1)` link. -/
def favDB1 : DB := { favDB0 with user_favorite_characters := [(1, 1)] }

/-- The favorite-link scenario after the same `(1, 1)` link twice. -/
def favDB2 : DB := { favDB0 with user_favorite_characters := [(1, 1), (1, 1)] }

/-- A comment with no author reference and no parent post reference. -/
def orphanComment : CommentRow := { id := 1, content := "First!" }

/-- A script environment where the drawing dependency is unavailable and a
diagram from an earlier run exists at the output path. -/
def failEnvWithDiagram : ScriptEnv :=
  { schemadisplayAvailable := false, diagramExists := true }

/-! ## Claims -/

/-- C1: in every reachable collection of created Users the username values
are pairwise distinct and the email values are pairwise distinct, and an
attempted insert of a User whose email equals the email of an existing
User is rejected with a constraint error, leaving the state unchanged
(the step produces no new state). -/
theorem users_unique_and_duplicate_email_rejected :
    (∀ db : DB, Reachable db →
      db.users.Pairwise (fun a b => a.username ≠ b.username ∧ a.email ≠ b.email)) ∧
    (∀ (db : DB) (u : UserRow), (∃ v ∈ db.users, v.email = u.email) →
      ∃ msg, step db (Op.createUser u) = Except.error msg) := by
  constructor
  · intro db h
    exact ((reachable_inv h).1).imp (fun hab => ⟨hab.2.1, hab.2.2⟩)
  · rintro db u ⟨v, hv, he⟩
    simp only [step, createUser]
    split
    · exact ⟨_, rfl⟩
    split
    · exact ⟨_, rfl⟩
    split
    · exact ⟨_, rfl⟩
    rename_i hmail
    exact absurd (List.any_eq_true.mpr ⟨v, hv, by simp [he]⟩) hmail

/-- Witness for C1 at a concrete state: the single-user state is reachable
and satisfies pairwise distinctness, and inserting a second user with the
same email is rejected. -/
theorem users_unique_and_duplicate_email_rejected_witness :
    dbOneUser.users.Pairwise (fun a b => a.username ≠ b.username ∧ a.email ≠ b.email) ∧
    (∃ msg, step dbOneUser (Op.createUser sampleUser2) = Except.error msg) :=
  ⟨users_unique_and_duplicate_email_rejected.1 dbOneUser
      (@Reachable.step emptyDB dbOneUser (Op.createUser sampleUser1) Reachable.empty rfl),
   users_unique_and_duplicate_email_rejected.2 dbOneUser sampleUser2
      ⟨sampleUser1, by simp [dbOneUser], rfl⟩⟩

/-- C2: whenever the `home_planet` accessor of a stored Character resolves
to a Planet `p`, the `residents` accessor of `p` contains that Character
(bidirectional consistency of the `back_populates` pair). -/
theorem home_planet_residents_consistent (db : DB) (c : CharacterRow) (p : PlanetRow)
    (hc : c ∈ db.characters) (hp : c.home_planet db = some p) :
    c ∈ p.residents db := by
  unfold CharacterRow.home_planet at hp
  cases hpid : c.home_planet_id with
  | none =>
    rw [hpid] at hp
    exact absurd hp (by simp)
  | some pid =>
    rw [hpid] at hp
    have hpe : p.id = pid := by simpa using List.find?_some hp
    refine List.mem_filter.mpr ⟨hc, ?_⟩
    simp [hpid, hpe]

/-- Witness for C2, the scenario of the spec: create Planet "Tatooine",
create Character "Luke Skywalker" with `home_planet` = Tatooine; the
`residents` list of Tatooine contains Luke. -/
theorem home_planet_residents_consistent_witness :
    step emptyDB (Op.createPlanet tatooine) = Except.ok { emptyDB with planets := [tatooine] } ∧
    step { emptyDB with planets := [tatooine] } (Op.createCharacter luke) = Except.ok scenarioDB ∧
    luke ∈ tatooine.residents scenarioDB :=
  ⟨rfl, rfl,
    home_planet_residents_consistent scenarioDB luke tatooine (by simp [scenarioDB]) rfl⟩

/-- C3: for stored rows, membership in the three many-to-many association
accessors of a Film (`characters`, `planets`, `vehicles`) holds exactly
when the Film is a member of the `films` accessor of the entity: the
associations are symmetric in both navigation directions. -/
theorem film_associations_symmetric :
    (∀ (db : DB) (f : FilmRow) (c : CharacterRow), c ∈ db.characters → f ∈ db.films →
      (c ∈ f.characters db ↔ f ∈ c.films db)) ∧
    (∀ (db : DB) (f : FilmRow) (p : PlanetRow), p ∈ db.planets → f ∈ db.films →
      (p ∈ f.planets db ↔ f ∈ p.films db)) ∧
    (∀ (db : DB) (f : FilmRow) (v : VehicleRow), v ∈ db.vehicles → f ∈ db.films →
      (v ∈ f.vehicles db ↔ f ∈ v.films db)) := by
  refine ⟨fun db f c hc hf => ?_, fun db f p hp hf => ?_, fun db f v hv hf => ?_⟩
  · simp [FilmRow.characters, CharacterRow.films, List.mem_filter, hc, hf]
  · simp [FilmRow.planets, PlanetRow.films, List.mem_filter, hp, hf]
  · simp [FilmRow.vehicles, VehicleRow.films, List.mem_filter, hv, hf]

/-- Witness for C3 at a concrete state with one `character_films` link and
one `planet_films` link. -/
theorem film_associations_symmetric_witness :
    (luke ∈ anh.characters filmDB ↔ anh ∈ luke.films filmDB) ∧
    (tatooine ∈ anh.planets filmDB ↔ anh ∈ tatooine.films filmDB) :=
  ⟨film_associations_symmetric.1 filmDB anh luke (by simp [filmDB]) (by simp [filmDB]),
   film_associations_symmetric.2.1 filmDB anh tatooine (by simp [filmDB]) (by simp [filmDB])⟩

/-- C4 counterexample: with a diagram from an earlier run present and the
drawing dependency unavailable, the run exits non-zero but does have a
further observable effect — the file state at the output path changes
(the pre-existing diagram is removed), refuting the assertion that no
observable effect beyond the message and the exit status occurs in the
failure case. -/
theorem diagram_failure_side_effect_counterexample :
    (runDiagramScript failEnvWithDiagram).exitCode ≠ 0 ∧
    (runDiagramScript failEnvWithDiagram).diagramExists ≠ failEnvWithDiagram.diagramExists := by
  decide

/-- C4 as amended: every no-argument invocation first removes any file at
the fixed output path, and then either writes the image there and exits 0
or, when the drawing dependency cannot be imported, exits 1 after
printing the actionable message; in the failure case the only observable
effect beyond the message and the exit status is that a pre-existing
output file has been removed. -/
theorem diagram_script_outcomes (env : ScriptEnv) :
    (runDiagramScript env).diagramExists = env.schemadisplayAvailable ∧
    (runDiagramScript env).exitCode = (if env.schemadisplayAvailable then 0 else 1) ∧
    (runDiagramScript env).printed =
      (if env.schemadisplayAvailable
        then [output_path ++ " generated successfully at " ++ output_path ++ "!"]
        else importErrorMessage) := by
  cases env with
  | mk avail dex => cases avail <;> simp [runDiagramScript]

/-- C5: the schema consists of exactly seven entity definitions and
exactly six many-to-many association definitions, and each association
record consists of exactly two foreign-key columns with no additional
payload columns. -/
theorem schema_shape :
    entityTables.length = 7 ∧ associationTables.length = 6 ∧
    ∀ t ∈ associationTables, t.columns.length = 2 ∧
      ∀ col ∈ t.columns, col.foreignKey.isSome = true := by
  decide

/-- C6: in every reachable state, the `home_planet_id` of every Character,
the `author_id` of every BlogPost, and the `author_id` and `post_id` of
every Comment are each null or equal to the identity key of an existing
row of the referenced table; reachability quantifies over all modelled
operations, so the integrity is preserved by each of them. -/
theorem referential_integrity_reachable (db : DB) (h : Reachable db) :
    (∀ c ∈ db.characters, ∀ pid, c.home_planet_id = some pid →
      ∃ p ∈ db.planets, p.id = pid) ∧
    (∀ b ∈ db.blog_posts, ∀ uid, b.author_id = some uid →
      ∃ u ∈ db.users, u.id = uid) ∧
    (∀ cm ∈ db.comments,
      (∀ uid, cm.author_id = some uid → ∃ u ∈ db.users, u.id = uid) ∧
      (∀ pid, cm.post_id = some pid → ∃ b ∈ db.blog_posts, b.id = pid)) :=
  (reachable_inv h).2

/-- Witness for C6: in the concrete reachable Tatooine–Luke state, the
`home_planet_id` of Luke references an existing planet row. -/
theorem referential_integrity_reachable_witness :
    ∃ p ∈ scenarioDB.planets, p.id = 1 :=
  (referential_integrity_reachable scenarioDB
      (@Reachable.step { emptyDB with planets := [tatooine] } scenarioDB
        (Op.createCharacter luke)
        (@Reachable.step emptyDB { emptyDB with planets := [tatooine] }
          (Op.createPlanet tatooine) Reachable.empty rfl) rfl)).1
    luke (by simp [scenarioDB]) 1 rfl

/-- C7: clearing the author reference of a blog post leaves the whole
`comments` table unchanged and leaves the `comments` accessor of every
blog post unchanged: no Comment row is deleted or detached.  The
statement is unconditional, so it covers in particular every post with a
non-empty comments list. -/
theorem clear_author_preserves_comments (db : DB) (bid : Int) (b : BlogPostRow) :
    step db (Op.clearBlogPostAuthor bid) = Except.ok (clearBlogPostAuthor db bid) ∧
    (clearBlogPostAuthor db bid).comments = db.comments ∧
    b.comments (clearBlogPostAuthor db bid) = b.comments db :=
  ⟨rfl, rfl, rfl⟩

/-- C8: the script removes any file at the output path before attempting
the import, so when a diagram from an earlier run exists and the drawing
dependency is unavailable, the failing run exits 1 and leaves no file at
the output path. -/
theorem diagram_failure_removes_existing (env : ScriptEnv)
    (hdep : env.schemadisplayAvailable = false) (_hex : env.diagramExists = true) :
    (runDiagramScript env).exitCode = 1 ∧
    (runDiagramScript env).diagramExists = false := by
  simp [runDiagramScript, hdep]

/-- Witness for C8 at the concrete environment with a pre-existing diagram
and the dependency unavailable. -/
theorem diagram_failure_removes_existing_witness :
    failEnvWithDiagram.schemadisplayAvailable = false ∧
    failEnvWithDiagram.diagramExists = true ∧
    (runDiagramScript failEnvWithDiagram).exitCode = 1 ∧
    (runDiagramScript failEnvWithDiagram).diagramExists = false :=
  ⟨rfl, rfl, (diagram_failure_removes_existing failEnvWithDiagram rfl rfl).1,
    (diagram_failure_removes_existing failEnvWithDiagram rfl rfl).2⟩

/-- C9: no column of the six association tables declares a primary key or
a uniqueness constraint, and a duplicate link is a representable state:
from a reachable state already holding the `(1, 1)` favorite link,
inserting the same pair again succeeds, giving a reachable state in which
the pair occurs twice. -/
theorem association_tables_allow_duplicates :
    (∀ t ∈ associationTables, ∀ col ∈ t.columns,
      col.primaryKey = false ∧ col.unique = false) ∧
    step favDB1 (Op.addUserFavoriteCharacter 1 1) = Except.ok favDB2 ∧
    favDB2.user_favorite_characters.count (1, 1) = 2 ∧
    Reachable favDB2 := by
  refine ⟨by decide, rfl, by decide, ?_⟩
  exact @Reachable.step favDB1 favDB2 (Op.addUserFavoriteCharacter 1 1)
    (@Reachable.step favDB0 favDB1 (Op.addUserFavoriteCharacter 1 1)
      (@Reachable.step { emptyDB with users := [favUser] } favDB0 (Op.createCharacter favChar)
        (@Reachable.step emptyDB { emptyDB with users := [favUser] } (Op.createUser favUser)
          Reachable.empty rfl) rfl) rfl) rfl

/-- C10: a Comment with `author_id = NULL` and `post_id = NULL` is a
representable state: both columns are nullable while `content` is not,
and inserting such an orphan comment into the empty schema is not
rejected by the declared constraints. -/
theorem orphan_comment_representable :
    (∃ col ∈ commentsTable.columns, col.name = "author_id" ∧ col.nullable = true) ∧
    (∃ col ∈ commentsTable.columns, col.name = "post_id" ∧ col.nullable = true) ∧
    (∀ col ∈ commentsTable.columns, col.name = "content" → col.nullable = false) ∧
    orphanComment.author_id = none ∧ orphanComment.post_id = none ∧
    step emptyDB (Op.createComment orphanComment) =
      Except.ok { emptyDB with comments := [orphanComment] } :=
  ⟨by decide, by decide, by decide, rfl, rfl, rfl⟩

end StarwarsModels
